import Mathlib

/-!
Shallow embedding of the star-economy ledger of the SAVE-MORE-COMMUNITY
repository: the stored procedures `process_post_view` and
`process_story_view` from migration
`20251106230001_7e0501ea-2dc6-440e-a365-a14911b86e4c.sql` (the latest
definitions, which `CREATE OR REPLACE` the earlier ones), together with
the table rows they read and write.

Modelling conventions:
- SQL tables are lists of row structures; `SELECT ... WHERE pk = x` is
  `List.find?`, `UPDATE ... WHERE id = x` maps the matching rows,
  `INSERT` appends.
- Nullable SQL columns are `Option`; `coalesce(c, 0)` is `Option.getD 0`.
- `numeric` / `decimal` columns are `Rat` (PostgreSQL numeric arithmetic
  is exact decimal arithmetic); `integer` / `bigint` star amounts are `Int`.
- A `SELECT ... INTO v` that finds no row leaves `v` NULL, modelled by
  `Option`; the PL/pgSQL `IF a < b` with a NULL operand takes the ELSE
  branch, modelled by matching the `Option` with `none ↦ false`.
- The procedures return a JSON object built with `json_build_object`;
  its possible keys are modelled by the `ViewResult` structure, absent
  keys being `none`.
- uuid / text primary keys are abstracted as `Nat` (only equality on
  them is used).
-/

namespace SaveMore

/-- Row of `user_profiles` (migration in `src/unnamed/part_002`:
`wallet_balance DECIMAL(10,2) DEFAULT 0`, `star_balance INTEGER DEFAULT 0`,
`total_earned` added later); all three money columns are nullable. -/
structure Profile where
  id : Nat
  star_balance : Option Int
  wallet_balance : Option Rat
  total_earned : Option Rat
deriving DecidableEq

/-- Row of `posts` (columns used by `process_post_view`:
`id`, `user_id`, `star_price`, `status`). -/
structure Post where
  id : Nat
  user_id : Nat
  star_price : Option Int
  status : String
deriving DecidableEq

/-- Row of `user_storylines` (columns used by `process_story_view`;
`view_count integer DEFAULT 0` and `status` from migration
`20251022023014`). -/
structure Story where
  id : Nat
  user_id : Nat
  star_price : Option Int
  status : String
  view_count : Int
deriving DecidableEq

/-- Row of `post_views` (columns used: `post_id`, `user_id`). -/
structure PostView where
  post_id : Nat
  user_id : Nat
deriving DecidableEq

/-- Row of `story_views` (migration `20251022023014`:
`story_id`, `viewer_id`, `stars_spent`, with `UNIQUE(story_id, viewer_id)`). -/
structure StoryView where
  story_id : Nat
  viewer_id : Nat
  stars_spent : Int
deriving DecidableEq

/-- Row of `wallet_history` as inserted by the two procedures:
`(user_id, type, amount, currency, meta)` with
`meta = json_build_object(content id, stars_spent)`. -/
structure WalletHistory where
  user_id : Nat
  htype : String
  amount : Rat
  currency : String
  meta_content_id : Nat
  meta_stars_spent : Int
deriving DecidableEq

/-- Row of `view_transactions` (the posts ledger) as inserted by
`process_post_view`. -/
structure ViewTransaction where
  post_id : Nat
  viewer_id : Nat
  uploader_id : Nat
  star_price : Int
  uploader_amount : Rat
  viewer_amount : Rat
  platform_amount : Rat
deriving DecidableEq

/-- Row of `story_transactions` (migration `20251022023014`), the stories
ledger, as inserted by `process_story_view`. -/
structure StoryTransaction where
  story_id : Nat
  uploader_id : Nat
  viewer_id : Nat
  stars_spent : Int
  uploader_earn : Rat
  viewer_earn : Rat
  platform_earn : Rat
deriving DecidableEq

/-- Row of `user_notifications` (columns relevant to the ledger:
recipient, title, category). The latest procedures never write this
table; it is carried in the state to observe that. -/
structure UserNotification where
  user_id : Nat
  title : String
  notification_category : String
deriving DecidableEq

/-- The database state touched by the ledger procedures. -/
structure DB where
  user_profiles : List Profile
  posts : List Post
  user_storylines : List Story
  post_views : List PostView
  story_views : List StoryView
  wallet_history : List WalletHistory
  view_transactions : List ViewTransaction
  story_transactions : List StoryTransaction
  user_notifications : List UserNotification
deriving DecidableEq

/-- The JSON object returned by the procedures: possible keys are
`success`, `error`, `viewer_earn`, `charged`; a key not built by the
corresponding `json_build_object` call is `none`.  (Neither procedure
ever builds an `already_viewed` key in this migration.) -/
structure ViewResult where
  success : Bool
  error : Option String := none
  viewer_earn : Option Rat := none
  charged : Option Bool := none
deriving DecidableEq

/-- `star_value numeric := 500` — ₦500 per star. -/
def star_value : Rat := 500

/-- `UPDATE user_profiles SET ... WHERE id = uid`: apply `f` to every row
whose `id` matches `uid`. -/
def updRows (l : List Profile) (uid : Nat) (f : Profile → Profile) : List Profile :=
  l.map fun pr => if pr.id == uid then f pr else pr

/-- `public.process_post_view(p_post_id text, p_viewer_id uuid)` from
migration `20251106230001`, lines 5–87.  Follows the source line by
line: lookup of the approved post; free/own-post early return;
repeat-view check against `post_views` (note: the procedure never
inserts into `post_views`); balance check with `coalesce`; 60/20/20
share computation at ₦500 per star; star deduction; uploader and viewer
wallet credits; `wallet_history` and `view_transactions` inserts. -/
def process_post_view (db : DB) (p_post_id : Nat) (p_viewer_id : Nat) :
    DB × ViewResult :=
  match db.posts.find? (fun post => post.id == p_post_id && post.status == "approved") with
  | none => (db, { success := false, error := some "Post not found" })
  | some v_post =>
      let v_uploader := v_post.user_id
      let v_price : Int := v_post.star_price.getD 0
      if v_price ≤ 0 ∨ v_uploader = p_viewer_id then
        (db, { success := true, viewer_earn := some 0, charged := some false })
      else if db.post_views.any (fun vw => vw.post_id == p_post_id && vw.user_id == p_viewer_id) then
        (db, { success := true, viewer_earn := some 0, charged := some false })
      else
        let v_viewer_stars : Option Int :=
          (db.user_profiles.find? (fun pr => pr.id == p_viewer_id)).map
            (fun pr => pr.star_balance.getD 0)
        let below : Bool :=
          match v_viewer_stars with
          | some s => decide (s < v_price)
          | none => false
        if below then
          (db, { success := false, error := some "Insufficient stars" })
        else
          let uploader_share : Rat := (v_price : Rat) * star_value * 0.60
          let viewer_share : Rat := (v_price : Rat) * star_value * 0.20
          let platform_share : Rat := (v_price : Rat) * star_value * 0.20
          let profiles1 := updRows db.user_profiles p_viewer_id
            (fun pr => { pr with star_balance := pr.star_balance.map (fun b => b - v_price) })
          let profiles2 := updRows profiles1 v_uploader
            (fun pr => { pr with
              wallet_balance := some (pr.wallet_balance.getD 0 + uploader_share),
              total_earned := some (pr.total_earned.getD 0 + uploader_share) })
          let profiles3 := updRows profiles2 p_viewer_id
            (fun pr => { pr with wallet_balance := some (pr.wallet_balance.getD 0 + viewer_share) })
          ({ db with
              user_profiles := profiles3,
              wallet_history := db.wallet_history ++
                [ { user_id := v_uploader, htype := "upload_earn", amount := uploader_share,
                    currency := "NGN", meta_content_id := p_post_id, meta_stars_spent := v_price },
                  { user_id := p_viewer_id, htype := "view_earn", amount := viewer_share,
                    currency := "NGN", meta_content_id := p_post_id, meta_stars_spent := v_price } ],
              view_transactions := db.view_transactions ++
                [ { post_id := p_post_id, viewer_id := p_viewer_id, uploader_id := v_uploader,
                    star_price := v_price, uploader_amount := uploader_share,
                    viewer_amount := viewer_share, platform_amount := platform_share } ] },
           { success := true, viewer_earn := some viewer_share, charged := some true })

/-- `public.process_story_view(p_story_id text, p_viewer_id uuid)` from
migration `20251106230001`, lines 90–171.  Follows the source line by
line: lookup of the active story; free/own-story early return;
repeat-view check against `story_views`; balance check; share
computation; star deduction; `story_views` insert; wallet credits;
`wallet_history` and `story_transactions` inserts.  (Unlike the earlier
version of this function it does not update `view_count` and does not
insert `user_notifications` rows.) -/
def process_story_view (db : DB) (p_story_id : Nat) (p_viewer_id : Nat) :
    DB × ViewResult :=
  match db.user_storylines.find? (fun st => st.id == p_story_id && st.status == "active") with
  | none => (db, { success := false, error := some "Story not found" })
  | some v_story =>
      let v_uploader := v_story.user_id
      let v_price : Int := v_story.star_price.getD 0
      if v_price ≤ 0 ∨ v_uploader = p_viewer_id then
        (db, { success := true, viewer_earn := some 0, charged := some false })
      else if db.story_views.any (fun vw => vw.story_id == p_story_id && vw.viewer_id == p_viewer_id) then
        (db, { success := true, viewer_earn := some 0, charged := some false })
      else
        let v_viewer_stars : Option Int :=
          (db.user_profiles.find? (fun pr => pr.id == p_viewer_id)).map
            (fun pr => pr.star_balance.getD 0)
        let below : Bool :=
          match v_viewer_stars with
          | some s => decide (s < v_price)
          | none => false
        if below then
          (db, { success := false, error := some "Insufficient stars" })
        else
          let uploader_share : Rat := (v_price : Rat) * star_value * 0.60
          let viewer_share : Rat := (v_price : Rat) * star_value * 0.20
          let platform_share : Rat := (v_price : Rat) * star_value * 0.20
          let profiles1 := updRows db.user_profiles p_viewer_id
            (fun pr => { pr with star_balance := pr.star_balance.map (fun b => b - v_price) })
          let views1 := db.story_views ++
            [ { story_id := p_story_id, viewer_id := p_viewer_id, stars_spent := v_price } ]
          let profiles2 := updRows profiles1 v_uploader
            (fun pr => { pr with
              wallet_balance := some (pr.wallet_balance.getD 0 + uploader_share),
              total_earned := some (pr.total_earned.getD 0 + uploader_share) })
          let profiles3 := updRows profiles2 p_viewer_id
            (fun pr => { pr with wallet_balance := some (pr.wallet_balance.getD 0 + viewer_share) })
          ({ db with
              user_profiles := profiles3,
              story_views := views1,
              wallet_history := db.wallet_history ++
                [ { user_id := v_uploader, htype := "story_earn", amount := uploader_share,
                    currency := "NGN", meta_content_id := p_story_id, meta_stars_spent := v_price },
                  { user_id := p_viewer_id, htype := "story_cashback", amount := viewer_share,
                    currency := "NGN", meta_content_id := p_story_id, meta_stars_spent := v_price } ],
              story_transactions := db.story_transactions ++
                [ { story_id := p_story_id, uploader_id := v_uploader, viewer_id := p_viewer_id,
                    stars_spent := v_price, uploader_earn := uploader_share,
                    viewer_earn := viewer_share, platform_earn := platform_share } ] },
           { success := true, viewer_earn := some viewer_share, charged := some true })

/-- One ledger invocation: either of the two stored procedures. -/
inductive Call where
  | postView (post_id viewer_id : Nat)
  | storyView (story_id viewer_id : Nat)
deriving DecidableEq

/-- State transition of one call (the returned JSON is discarded). -/
def applyCall (db : DB) : Call → DB
  | .postView p v => (process_post_view db p v).1
  | .storyView s v => (process_story_view db s v).1

/-- State after a sequence of ledger calls. -/
def applyCalls (db : DB) (cs : List Call) : DB := cs.foldl applyCall db

/-- No profile row has a negative `star_balance` (a NULL balance reads as
`coalesce 0`, which is not negative). -/
abbrev NonNegList (l : List Profile) : Prop := ∀ pr ∈ l, 0 ≤ pr.star_balance.getD 0

/-- No account's `star_balance` is negative in state `db`. -/
abbrev NonNegStars (db : DB) : Prop := NonNegList db.user_profiles

/-- `user_profiles.id` is a primary key: the ids of the rows are pairwise
distinct. -/
abbrev WFProfiles (db : DB) : Prop := (db.user_profiles.map Profile.id).Nodup

/-- A small concrete database used to instantiate the theorems:
accounts 10 (content owner), 20 (viewer with 5 stars), 30 (viewer with
only 2 stars), 40 (viewer with 10 stars); an approved post and an active
story both owned by 10 and priced at 3 stars; a NULL-priced approved
post and active story; a free (0-star) story; a pending post and a
suspended story. -/
def dbW : DB :=
  { user_profiles :=
      [ { id := 20, star_balance := some 5, wallet_balance := some 7, total_earned := some 0 },
        { id := 10, star_balance := some 0, wallet_balance := some 1, total_earned := some 0 },
        { id := 30, star_balance := some 2, wallet_balance := some 0, total_earned := some 0 },
        { id := 40, star_balance := some 10, wallet_balance := some 0, total_earned := some 0 } ],
    posts :=
      [ { id := 1, user_id := 10, star_price := some 3, status := "approved" },
        { id := 2, user_id := 10, star_price := none, status := "approved" },
        { id := 3, user_id := 10, star_price := some 3, status := "pending" } ],
    user_storylines :=
      [ { id := 1, user_id := 10, star_price := some 3, status := "active", view_count := 0 },
        { id := 2, user_id := 10, star_price := some 0, status := "active", view_count := 0 },
        { id := 3, user_id := 10, star_price := some 3, status := "suspended", view_count := 5 },
        { id := 4, user_id := 10, star_price := none, status := "active", view_count := 0 } ],
    post_views := [], story_views := [], wallet_history := [],
    view_transactions := [], story_transactions := [], user_notifications := [] }

/-! ### Helper lemmas about `updRows` -/

/-- An `UPDATE` whose row function keeps the primary key leaves the list
of ids unchanged. -/
theorem updRows_map_id (l : List Profile) (uid : Nat) (f : Profile → Profile)
    (hf : ∀ pr, (f pr).id = pr.id) :
    (updRows l uid f).map Profile.id = l.map Profile.id := by
  unfold updRows
  rw [List.map_map]
  apply List.map_congr_left
  intro pr _
  by_cases hc : (pr.id == uid) = true
  · simp only [Function.comp_apply, if_pos hc, hf]
  · simp only [Function.comp_apply, if_neg hc]

/-- `find?` by id commutes with an id-preserving `UPDATE`. -/
theorem find?_updRows (l : List Profile) (uid u2 : Nat) (f : Profile → Profile)
    (hf : ∀ pr, (f pr).id = pr.id) :
    (updRows l uid f).find? (fun pr => pr.id == u2) =
      (l.find? (fun pr => pr.id == u2)).map (fun pr => if pr.id == uid then f pr else pr) := by
  unfold updRows
  have hp : ((fun pr => pr.id == u2) ∘ fun pr => if pr.id == uid then f pr else pr)
      = (fun pr => pr.id == u2) := by
    funext pr
    by_cases hc : (pr.id == uid) = true
    · simp only [Function.comp_apply, if_pos hc, hf]
    · simp only [Function.comp_apply, if_neg hc]
  rw [List.find?_map, hp]

/-- An `UPDATE` whose `WHERE` clause matches no row is the identity. -/
theorem updRows_of_find?_none (l : List Profile) (uid : Nat) (f : Profile → Profile)
    (hfind : l.find? (fun pr => pr.id == uid) = none) :
    updRows l uid f = l := by
  have h := List.find?_eq_none.mp hfind
  unfold updRows
  conv_rhs => rw [← List.map_id l]
  apply List.map_congr_left
  intro pr hpr
  simp [h pr hpr]

/-- An `UPDATE` that does not touch `star_balance` preserves
non-negativity of all star balances. -/
theorem nonNegList_updRows_of_star_eq (l : List Profile) (uid : Nat) (f : Profile → Profile)
    (hf : ∀ pr, (f pr).star_balance = pr.star_balance)
    (h : NonNegList l) : NonNegList (updRows l uid f) := by
  intro pr hpr
  rcases List.mem_map.mp hpr with ⟨pr0, h0, rfl⟩
  by_cases hc : (pr0.id == uid) = true <;> simp [hc, hf] <;> exact h pr0 h0

/-- The star deduction `star_balance := star_balance - price` preserves
non-negativity, provided the checked row (the unique row of the viewer,
by the primary key) has balance at least `price`. -/
theorem nonNegList_deduct (l : List Profile) (uid : Nat) (price : Int)
    (hNodup : (l.map Profile.id).Nodup) (h : NonNegList l) (pr0 : Profile)
    (hfind : l.find? (fun pr => pr.id == uid) = some pr0)
    (hge : price ≤ pr0.star_balance.getD 0) :
    NonNegList (updRows l uid
      (fun pr => { pr with star_balance := pr.star_balance.map (fun b => b - price) })) := by
  intro pr hpr
  rcases List.mem_map.mp hpr with ⟨pr1, h1, rfl⟩
  by_cases hc : (pr1.id == uid) = true
  · have hmem0 := List.mem_of_find?_eq_some hfind
    have hid0 := List.find?_some hfind
    have heq : pr1 = pr0 := by
      apply List.inj_on_of_nodup_map hNodup h1 hmem0
      have e1 : pr1.id = uid := by simpa using hc
      have e0 : pr0.id = uid := by simpa using hid0
      rw [e1, e0]
    subst heq
    rw [if_pos hc]
    dsimp only
    cases hsb : pr1.star_balance with
    | none => simp
    | some b =>
        rw [hsb] at hge
        simp only [Option.map_some', Option.getD_some] at hge ⊢
        omega
  · rw [if_neg hc]
    exact h pr1 h1

/-- The three-step profile update of a charged view (star deduction,
uploader wallet credit, viewer cashback credit) keeps the primary key
unique and all star balances non-negative, given that the balance check
of the procedure did not fire. -/
theorem charge_profiles_inv (l : List Profile) (vid uplid : Nat) (price : Int) (us vs : Rat)
    (hWF : (l.map Profile.id).Nodup) (hNN : NonNegList l)
    (hbelow : ¬(match (l.find? (fun pr => pr.id == vid)).map (fun pr => pr.star_balance.getD 0) with
        | some s => decide (s < price)
        | none => false) = true) :
    ((updRows (updRows (updRows l vid
        (fun pr => { pr with star_balance := pr.star_balance.map (fun b => b - price) })) uplid
        (fun pr => { pr with wallet_balance := some (pr.wallet_balance.getD 0 + us),
                             total_earned := some (pr.total_earned.getD 0 + us) })) vid
        (fun pr => { pr with wallet_balance := some (pr.wallet_balance.getD 0 + vs) })).map Profile.id).Nodup
    ∧ NonNegList (updRows (updRows (updRows l vid
        (fun pr => { pr with star_balance := pr.star_balance.map (fun b => b - price) })) uplid
        (fun pr => { pr with wallet_balance := some (pr.wallet_balance.getD 0 + us),
                             total_earned := some (pr.total_earned.getD 0 + us) })) vid
        (fun pr => { pr with wallet_balance := some (pr.wallet_balance.getD 0 + vs) })) := by
  constructor
  · rw [updRows_map_id, updRows_map_id, updRows_map_id] <;>
      first
      | exact hWF
      | (intro pr; rfl)
  · apply nonNegList_updRows_of_star_eq
    · intro pr; rfl
    · apply nonNegList_updRows_of_star_eq
      · intro pr; rfl
      · cases hfp : l.find? (fun pr => pr.id == vid) with
        | none => rw [updRows_of_find?_none _ _ _ hfp]; exact hNN
        | some pr0 =>
            rw [hfp] at hbelow
            simp only [Option.map_some', decide_eq_true_eq] at hbelow
            exact nonNegList_deduct _ _ _ hWF hNN pr0 hfp (by omega)

/-- `process_post_view` preserves primary-key uniqueness and
non-negativity of all star balances. -/
theorem inv_post (db : DB) (p v : Nat) (hWF : WFProfiles db) (hNN : NonNegStars db) :
    WFProfiles (process_post_view db p v).1 ∧ NonNegStars (process_post_view db p v).1 := by
  unfold process_post_view
  dsimp only
  repeat' split
  all_goals
    first
    | exact ⟨hWF, hNN⟩
    | (rename_i hbelow
       exact charge_profiles_inv _ _ _ _ _ _ hWF hNN hbelow)

/-- `process_story_view` preserves primary-key uniqueness and
non-negativity of all star balances. -/
theorem inv_story (db : DB) (s v : Nat) (hWF : WFProfiles db) (hNN : NonNegStars db) :
    WFProfiles (process_story_view db s v).1 ∧ NonNegStars (process_story_view db s v).1 := by
  unfold process_story_view
  dsimp only
  repeat' split
  all_goals
    first
    | exact ⟨hWF, hNN⟩
    | (rename_i hbelow
       exact charge_profiles_inv _ _ _ _ _ _ hWF hNN hbelow)

/-- C3: starting from any state whose `user_profiles` ids are unique (the
primary key) and in which every account's `star_balance` is
non-negative, no sequence of `process_post_view` / `process_story_view`
calls can make any account's `star_balance` negative: the viewer's
balance is only decremented on the branch where the
`v_viewer_stars < v_price` check has failed. -/
theorem C3_no_negative_star_balance (db : DB) (cs : List Call)
    (hWF : WFProfiles db) (hNN : NonNegStars db) :
    NonNegStars (applyCalls db cs) := by
  induction cs generalizing db with
  | nil => exact hNN
  | cons c cs ih =>
      have h : WFProfiles (applyCall db c) ∧ NonNegStars (applyCall db c) := by
        cases c with
        | postView p v => exact inv_post db p v hWF hNN
        | storyView s v => exact inv_story db s v hWF hNN
      exact ih (applyCall db c) h.1 h.2

/-- Witness for C3 at the concrete state `dbW` and a concrete call
sequence mixing charged, free, insufficient and repeat views. -/
theorem C3_no_negative_star_balance_witness :
    WFProfiles dbW ∧ NonNegStars dbW ∧
      NonNegStars (applyCalls dbW
        [Call.storyView 1 20, Call.postView 1 30, Call.storyView 2 20,
         Call.postView 1 40, Call.postView 1 40, Call.storyView 1 20]) :=
  ⟨by decide, by decide,
    C3_no_negative_star_balance dbW _ (by decide) (by decide)⟩

/-- C1: the claimed idempotence fails for posts.  `process_post_view`
checks `post_views` to "prevent double-charging on repeat views" but
never inserts a row into `post_views`, so at the concrete state `dbW`
(post 1 priced at 3 stars, viewer 40 with 10 stars) two sequential
calls both charge: the second call returns `charged = true` (not the
already-viewed `charged = false`, and with no error), two ledger rows
exist in `view_transactions`, and the viewer has paid twice
(10 − 3 − 3 = 4 stars left); no view record exists at all. -/
theorem C1_post_view_double_charge :
    (process_post_view (process_post_view dbW 1 40).1 1 40).2.charged = some true ∧
    (process_post_view (process_post_view dbW 1 40).1 1 40).2.error = none ∧
    (process_post_view (process_post_view dbW 1 40).1 1 40).1.view_transactions.length = 2 ∧
    ((process_post_view (process_post_view dbW 1 40).1 1 40).1.user_profiles.find?
        (fun pr => pr.id == 40)).map (fun pr => pr.star_balance) = some (some 4) ∧
    (process_post_view (process_post_view dbW 1 40).1 1 40).1.post_views = [] :=
  ⟨rfl, rfl, rfl, rfl, rfl⟩

/-- C2: for every charged view (post or story), the ledger row appended
by the call satisfies `ownerEarn + viewerEarn + platformEarn =
starsSpent * 500` exactly, with `ownerEarn = starsSpent * 500 * 0.60`,
`viewerEarn = starsSpent * 500 * 0.20` and `platformEarn =
starsSpent * 500 * 0.20` (the 60/20/20 split), in exact rational
arithmetic. -/
theorem C2_conservation_split (db dbp dbs : DB) (p_post_id p_story_id vp vs : Nat)
    (rp rs : ViewResult)
    (hp : process_post_view db p_post_id vp = (dbp, rp)) (hcp : rp.charged = some true)
    (hs : process_story_view db p_story_id vs = (dbs, rs)) (hcs : rs.charged = some true) :
    (∃ t, dbp.view_transactions = db.view_transactions ++ [t] ∧
       t.uploader_amount + t.viewer_amount + t.platform_amount = (t.star_price : Rat) * 500 ∧
       t.uploader_amount = (t.star_price : Rat) * 500 * 0.60 ∧
       t.viewer_amount = (t.star_price : Rat) * 500 * 0.20 ∧
       t.platform_amount = (t.star_price : Rat) * 500 * 0.20) ∧
    (∃ t, dbs.story_transactions = db.story_transactions ++ [t] ∧
       t.uploader_earn + t.viewer_earn + t.platform_earn = (t.stars_spent : Rat) * 500 ∧
       t.uploader_earn = (t.stars_spent : Rat) * 500 * 0.60 ∧
       t.viewer_earn = (t.stars_spent : Rat) * 500 * 0.20 ∧
       t.platform_earn = (t.stars_spent : Rat) * 500 * 0.20) := by
  constructor
  · unfold process_post_view at hp
    dsimp only at hp
    repeat' split at hp
    all_goals (
      injection hp with hdb hr
      first
      | (rw [← hr] at hcp; exact absurd hcp (by decide))
      | (subst hdb
         refine ⟨_, rfl, ?_, ?_, ?_, ?_⟩ <;> (dsimp only; simp only [star_value]; try ring)))
  · unfold process_story_view at hs
    dsimp only at hs
    repeat' split at hs
    all_goals (
      injection hs with hdb hr
      first
      | (rw [← hr] at hcs; exact absurd hcs (by decide))
      | (subst hdb
         refine ⟨_, rfl, ?_, ?_, ?_, ?_⟩ <;> (dsimp only; simp only [star_value]; try ring)))

/-- Witness for C2: the charged post view (post 1, viewer 20) and the
charged story view (story 1, viewer 40) at `dbW`. -/
theorem C2_conservation_split_witness :
    (∃ t, (process_post_view dbW 1 20).1.view_transactions = dbW.view_transactions ++ [t] ∧
       t.uploader_amount + t.viewer_amount + t.platform_amount = (t.star_price : Rat) * 500 ∧
       t.uploader_amount = (t.star_price : Rat) * 500 * 0.60 ∧
       t.viewer_amount = (t.star_price : Rat) * 500 * 0.20 ∧
       t.platform_amount = (t.star_price : Rat) * 500 * 0.20) ∧
    (∃ t, (process_story_view dbW 1 40).1.story_transactions = dbW.story_transactions ++ [t] ∧
       t.uploader_earn + t.viewer_earn + t.platform_earn = (t.stars_spent : Rat) * 500 ∧
       t.uploader_earn = (t.stars_spent : Rat) * 500 * 0.60 ∧
       t.viewer_earn = (t.stars_spent : Rat) * 500 * 0.20 ∧
       t.platform_earn = (t.stars_spent : Rat) * 500 * 0.20) :=
  C2_conservation_split dbW _ _ 1 1 20 40 _ _ rfl rfl rfl rfl

/-- C4 counterexample: at `dbW`, story 2 is free (`star_price = 0`) and
viewer 20 is a third party, yet `process_story_view` returns success
with `charged = false` WITHOUT inserting any View Record — the
`story_views` table stays empty, refuting the claim that a free view
"inserts a View Record with starsSpent = 0". -/
theorem C4_free_view_inserts_no_record :
    process_story_view dbW 2 20 =
      (dbW, { success := true, viewer_earn := some 0, charged := some false }) ∧
    (process_story_view dbW 2 20).1.story_views = [] :=
  ⟨rfl, rfl⟩

/-- C4 (amended): a free (`star_price` coalescing to ≤ 0) or self view
returns success with `charged = false` and `viewer_earn = 0`, and
leaves the whole database state unchanged — in particular no View
Record is inserted, no `starBalance` is decremented and no Ledger
Transaction is inserted, regardless of balances. -/
theorem C4_free_or_self_no_charge (db : DB) (p_post_id p_story_id p_viewer_id : Nat)
    (v_post : Post) (v_story : Story)
    (hfp : db.posts.find? (fun post => post.id == p_post_id && post.status == "approved") = some v_post)
    (hfreep : v_post.star_price.getD 0 ≤ 0 ∨ v_post.user_id = p_viewer_id)
    (hfs : db.user_storylines.find? (fun st => st.id == p_story_id && st.status == "active") = some v_story)
    (hfrees : v_story.star_price.getD 0 ≤ 0 ∨ v_story.user_id = p_viewer_id) :
    process_post_view db p_post_id p_viewer_id =
      (db, { success := true, viewer_earn := some 0, charged := some false }) ∧
    process_story_view db p_story_id p_viewer_id =
      (db, { success := true, viewer_earn := some 0, charged := some false }) := by
  constructor
  · unfold process_post_view
    rw [hfp]
    dsimp only
    rw [if_pos hfreep]
  · unfold process_story_view
    rw [hfs]
    dsimp only
    rw [if_pos hfrees]

/-- Witness for the amended C4: a self view of priced post 1 by its
owner 10, and a free view of story 2 by viewer 20, both at `dbW`. -/
theorem C4_free_or_self_no_charge_witness :
    ({ id := 2, user_id := 10, star_price := some 0, status := "active", view_count := 0 } : Story).star_price.getD 0 ≤ 0 ∧
    ({ id := 1, user_id := 10, star_price := some 3, status := "approved" } : Post).user_id = 10 ∧
    process_post_view dbW 1 10 =
      (dbW, { success := true, viewer_earn := some 0, charged := some false }) ∧
    process_story_view dbW 2 20 =
      (dbW, { success := true, viewer_earn := some 0, charged := some false }) :=
  ⟨by decide, by decide,
    (C4_free_or_self_no_charge dbW 1 2 10
      { id := 1, user_id := 10, star_price := some 3, status := "approved" }
      { id := 2, user_id := 10, star_price := some 0, status := "active", view_count := 0 }
      (by decide) (Or.inr (by decide)) (by decide) (Or.inl (by decide))).1,
    (C4_free_or_self_no_charge dbW 2 2 20
      { id := 2, user_id := 10, star_price := none, status := "approved" }
      { id := 2, user_id := 10, star_price := some 0, status := "active", view_count := 0 }
      (by decide) (Or.inl (by decide)) (by decide) (Or.inl (by decide))).2⟩

/-- C5: a priced third-party first-time view by a viewer whose star
balance is below the price returns the "Insufficient stars" error and
leaves the database state completely unchanged, for both
`process_post_view` and `process_story_view`. -/
theorem C5_insufficient_stars_blocks (db : DB) (p_post_id p_story_id p_viewer_id : Nat)
    (v_post : Post) (v_story : Story) (prv : Profile)
    (hfp : db.posts.find? (fun post => post.id == p_post_id && post.status == "approved") = some v_post)
    (hpp : 0 < v_post.star_price.getD 0) (hop : v_post.user_id ≠ p_viewer_id)
    (hvp : db.post_views.any (fun vw => vw.post_id == p_post_id && vw.user_id == p_viewer_id) = false)
    (hfs : db.user_storylines.find? (fun st => st.id == p_story_id && st.status == "active") = some v_story)
    (hps : 0 < v_story.star_price.getD 0) (hos : v_story.user_id ≠ p_viewer_id)
    (hvs : db.story_views.any (fun vw => vw.story_id == p_story_id && vw.viewer_id == p_viewer_id) = false)
    (hprof : db.user_profiles.find? (fun pr => pr.id == p_viewer_id) = some prv)
    (hbalp : prv.star_balance.getD 0 < v_post.star_price.getD 0)
    (hbals : prv.star_balance.getD 0 < v_story.star_price.getD 0) :
    process_post_view db p_post_id p_viewer_id =
      (db, { success := false, error := some "Insufficient stars" }) ∧
    process_story_view db p_story_id p_viewer_id =
      (db, { success := false, error := some "Insufficient stars" }) := by
  constructor
  · unfold process_post_view
    rw [hfp]
    dsimp only
    rw [if_neg (by push_neg; exact ⟨by omega, hop⟩)]
    rw [hvp]
    rw [if_neg (by simp)]
    rw [hprof]
    dsimp only [Option.map_some']
    rw [if_pos (decide_eq_true hbalp)]
  · unfold process_story_view
    rw [hfs]
    dsimp only
    rw [if_neg (by push_neg; exact ⟨by omega, hos⟩)]
    rw [hvs]
    rw [if_neg (by simp)]
    rw [hprof]
    dsimp only [Option.map_some']
    rw [if_pos (decide_eq_true hbals)]

/-- Witness for C5: viewer 30 has 2 stars, post 1 and story 1 cost 3
stars; both calls are rejected and the state `dbW` is unchanged. -/
theorem C5_insufficient_stars_blocks_witness :
    ({ id := 30, star_balance := some 2, wallet_balance := some 0, total_earned := some 0 } : Profile).star_balance.getD 0 < 3 ∧
    process_post_view dbW 1 30 = (dbW, { success := false, error := some "Insufficient stars" }) ∧
    process_story_view dbW 1 30 = (dbW, { success := false, error := some "Insufficient stars" }) :=
  ⟨by decide,
    (C5_insufficient_stars_blocks dbW 1 1 30
      { id := 1, user_id := 10, star_price := some 3, status := "approved" }
      { id := 1, user_id := 10, star_price := some 3, status := "active", view_count := 0 }
      { id := 30, star_balance := some 2, wallet_balance := some 0, total_earned := some 0 }
      (by decide) (by decide) (by decide) (by decide) (by decide) (by decide) (by decide)
      (by decide) (by decide) (by decide) (by decide)).1,
    (C5_insufficient_stars_blocks dbW 1 1 30
      { id := 1, user_id := 10, star_price := some 3, status := "approved" }
      { id := 1, user_id := 10, star_price := some 3, status := "active", view_count := 0 }
      { id := 30, star_balance := some 2, wallet_balance := some 0, total_earned := some 0 }
      (by decide) (by decide) (by decide) (by decide) (by decide) (by decide) (by decide)
      (by decide) (by decide) (by decide) (by decide)).2⟩

/-- C6 counterexample: at `dbW` (post 1 priced 3 stars, viewer 20 with
5 stars) a first `process_post_view` call charges (`charged = true`,
one ledger row), yet `post_views` remains empty — so the claim's
"exactly one View Record with starsSpent = 3" fails for posts. -/
theorem C6_post_charge_creates_no_view_record :
    (process_post_view dbW 1 20).2.charged = some true ∧
    (process_post_view dbW 1 20).1.view_transactions.length = 1 ∧
    (process_post_view dbW 1 20).1.post_views = [] :=
  ⟨rfl, rfl, rfl⟩

/-- C6 (amended to story views): a first priced third-party story view
by a viewer with 5 stars on a story priced 3 stars leaves the viewer
with 2 stars and wallet `v0 + 300`, the owner with wallet `w0 + 900`,
appends exactly one View Record with `stars_spent = 3` and exactly one
Ledger Transaction `(900, 300, 300)`, and returns success with
`charged = true` and `viewer_earn = 300`.  (For posts the same holds
except that no View Record row is ever created, see the
counterexample.) -/
theorem C6_story_end_to_end (db : DB) (sid vid : Nat) (v_story : Story) (prv pro : Profile)
    (v0 w0 : Rat)
    (hfs : db.user_storylines.find? (fun st => st.id == sid && st.status == "active") = some v_story)
    (hsp : v_story.star_price = some 3)
    (hown : v_story.user_id ≠ vid)
    (hnv : db.story_views.any (fun vw => vw.story_id == sid && vw.viewer_id == vid) = false)
    (hpv : db.user_profiles.find? (fun pr => pr.id == vid) = some prv)
    (hv5 : prv.star_balance = some 5) (hvw : prv.wallet_balance = some v0)
    (hpo : db.user_profiles.find? (fun pr => pr.id == v_story.user_id) = some pro)
    (how : pro.wallet_balance = some w0) :
    (process_story_view db sid vid).2 =
      { success := true, viewer_earn := some 300, charged := some true } ∧
    (process_story_view db sid vid).1.user_profiles.find? (fun pr => pr.id == vid) =
      some { prv with star_balance := some 2, wallet_balance := some (v0 + 300) } ∧
    (process_story_view db sid vid).1.user_profiles.find? (fun pr => pr.id == v_story.user_id) =
      some { pro with wallet_balance := some (w0 + 900),
                      total_earned := some (pro.total_earned.getD 0 + 900) } ∧
    (process_story_view db sid vid).1.story_views =
      db.story_views ++ [{ story_id := sid, viewer_id := vid, stars_spent := 3 }] ∧
    (process_story_view db sid vid).1.story_transactions =
      db.story_transactions ++
        [{ story_id := sid, uploader_id := v_story.user_id, viewer_id := vid, stars_spent := 3,
           uploader_earn := 900, viewer_earn := 300, platform_earn := 300 }] := by
  have hprid := List.find?_some hpv
  have hproid := List.find?_some hpo
  have hprv_ne : (prv.id == v_story.user_id) = false := by
    have h1 : prv.id = vid := by simpa using hprid
    simp [h1]
    exact fun h => hown h.symm
  have hpro_ne : (pro.id == vid) = false := by
    have h1 : pro.id = v_story.user_id := by simpa using hproid
    simp [h1]
    exact hown
  unfold process_story_view
  rw [hfs]
  dsimp only
  rw [hsp]
  rw [if_neg (by push_neg; exact ⟨by norm_num, hown⟩)]
  rw [hnv]
  rw [if_neg (by simp)]
  rw [hpv]
  dsimp only [Option.map_some']
  rw [hv5]
  rw [if_neg (by decide)]
  refine ⟨?_, ?_, ?_, ?_, ?_⟩
  · simp only [Option.getD_some, star_value]
    norm_num
  · rw [find?_updRows, find?_updRows, find?_updRows, hpv] <;> try (intro pr; rfl)
    simp only [Option.map_some']
    simp [hprid, hprv_ne, hv5, hvw, star_value, Profile.mk.injEq]
    norm_num
  · rw [find?_updRows, find?_updRows, find?_updRows, hpo] <;> try (intro pr; rfl)
    simp only [Option.map_some']
    simp [hproid, hpro_ne, how, star_value, Profile.mk.injEq]
    norm_num
  · rfl
  · simp only [Option.getD_some, star_value]
    norm_num

/-- Witness for the amended C6 at `dbW`: story 1 (price 3, owner 10),
viewer 20 with 5 stars and wallet 7, owner wallet 1. -/
theorem C6_story_end_to_end_witness :
    (process_story_view dbW 1 20).2 =
      { success := true, viewer_earn := some 300, charged := some true } ∧
    (process_story_view dbW 1 20).1.user_profiles.find? (fun pr => pr.id == 20) =
      some { id := 20, star_balance := some 2, wallet_balance := some (7 + 300),
             total_earned := some 0 } ∧
    (process_story_view dbW 1 20).1.user_profiles.find? (fun pr => pr.id == 10) =
      some { id := 10, star_balance := some 0, wallet_balance := some (1 + 900),
             total_earned := some (0 + 900) } ∧
    (process_story_view dbW 1 20).1.story_views =
      dbW.story_views ++ [{ story_id := 1, viewer_id := 20, stars_spent := 3 }] ∧
    (process_story_view dbW 1 20).1.story_transactions =
      dbW.story_transactions ++
        [{ story_id := 1, uploader_id := 10, viewer_id := 20, stars_spent := 3,
           uploader_earn := 900, viewer_earn := 300, platform_earn := 300 }] :=
  C6_story_end_to_end dbW 1 20
    { id := 1, user_id := 10, star_price := some 3, status := "active", view_count := 0 }
    { id := 20, star_balance := some 5, wallet_balance := some 7, total_earned := some 0 }
    { id := 10, star_balance := some 0, wallet_balance := some 1, total_earned := some 0 }
    7 1 (by decide) (by decide) (by decide) (by decide) (by decide) (by decide) (by decide)
    (by decide) (by decide)

/-- C7: the claimed view-counter increment and the two notifications do
not happen in the current version of the procedures.  At `dbW`, the
charged story view (story 1, viewer 20) succeeds with `charged = true`,
yet the `user_storylines` table (including `view_count`) is completely
unchanged and `user_notifications` stays empty — the latest
`process_story_view` dropped the `view_count` update and the two
notification inserts that the previous version of the same function
performed. -/
theorem C7_charged_view_touches_no_counter_or_notification :
    (process_story_view dbW 1 20).2.charged = some true ∧
    (process_story_view dbW 1 20).1.user_storylines = dbW.user_storylines ∧
    (process_story_view dbW 1 20).1.user_notifications = [] :=
  ⟨rfl, rfl, rfl⟩

/-- C8: if no approved post row matches the id (post missing, pending,
or otherwise not approved) the call fails with "Post not found" and the
state is unchanged, and likewise a story with no active row (missing or
suspended) fails with "Story not found" with the state unchanged. -/
theorem C8_content_unavailable_no_mutation (db : DB) (p_post_id p_story_id p_viewer_id : Nat)
    (hpost : ∀ post ∈ db.posts, post.id = p_post_id → post.status ≠ "approved")
    (hstory : ∀ st ∈ db.user_storylines, st.id = p_story_id → st.status ≠ "active") :
    process_post_view db p_post_id p_viewer_id =
      (db, { success := false, error := some "Post not found" }) ∧
    process_story_view db p_story_id p_viewer_id =
      (db, { success := false, error := some "Story not found" }) := by
  have hfp : db.posts.find? (fun post => post.id == p_post_id && post.status == "approved") = none := by
    rw [List.find?_eq_none]
    intro post hmem hcontra
    rw [Bool.and_eq_true, beq_iff_eq, beq_iff_eq] at hcontra
    exact hpost post hmem hcontra.1 hcontra.2
  have hfs : db.user_storylines.find? (fun st => st.id == p_story_id && st.status == "active") = none := by
    rw [List.find?_eq_none]
    intro st hmem hcontra
    rw [Bool.and_eq_true, beq_iff_eq, beq_iff_eq] at hcontra
    exact hstory st hmem hcontra.1 hcontra.2
  constructor
  · unfold process_post_view
    rw [hfp]
  · unfold process_story_view
    rw [hfs]

/-- Witness for C8: id 3 names a pending post and a suspended story in
`dbW`; both calls are rejected with the state unchanged. -/
theorem C8_content_unavailable_no_mutation_witness :
    (∀ post ∈ dbW.posts, post.id = 3 → post.status ≠ "approved") ∧
    (∀ st ∈ dbW.user_storylines, st.id = 3 → st.status ≠ "active") ∧
    process_post_view dbW 3 20 = (dbW, { success := false, error := some "Post not found" }) ∧
    process_story_view dbW 3 20 = (dbW, { success := false, error := some "Story not found" }) :=
  ⟨by decide, by decide,
    (C8_content_unavailable_no_mutation dbW 3 3 20 (by decide) (by decide)).1,
    (C8_content_unavailable_no_mutation dbW 3 3 20 (by decide) (by decide)).2⟩

/-- C10: a content item whose `star_price` is NULL is treated exactly
like a zero-priced one: `coalesce(star_price, 0)` makes the free path
fire, the call returns success with `charged = false`, and the state is
unchanged (no charge, no transfer, no Ledger Transaction). -/
theorem C10_null_price_is_free (db : DB) (p_post_id p_story_id p_viewer_id : Nat)
    (v_post : Post) (v_story : Story)
    (hfp : db.posts.find? (fun post => post.id == p_post_id && post.status == "approved") = some v_post)
    (hpp : v_post.star_price = none)
    (hfs : db.user_storylines.find? (fun st => st.id == p_story_id && st.status == "active") = some v_story)
    (hsp : v_story.star_price = none) :
    process_post_view db p_post_id p_viewer_id =
      (db, { success := true, viewer_earn := some 0, charged := some false }) ∧
    process_story_view db p_story_id p_viewer_id =
      (db, { success := true, viewer_earn := some 0, charged := some false }) := by
  constructor
  · unfold process_post_view
    rw [hfp]
    dsimp only
    rw [hpp]
    rw [if_pos (Or.inl (by simp))]
  · unfold process_story_view
    rw [hfs]
    dsimp only
    rw [hsp]
    rw [if_pos (Or.inl (by simp))]

/-- Witness for C10: post 2 and story 4 of `dbW` have `star_price =
none`; viewing them charges nothing and mutates nothing. -/
theorem C10_null_price_is_free_witness :
    dbW.posts.find? (fun post => post.id == 2 && post.status == "approved") =
      some { id := 2, user_id := 10, star_price := none, status := "approved" } ∧
    dbW.user_storylines.find? (fun st => st.id == 4 && st.status == "active") =
      some { id := 4, user_id := 10, star_price := none, status := "active", view_count := 0 } ∧
    process_post_view dbW 2 20 =
      (dbW, { success := true, viewer_earn := some 0, charged := some false }) ∧
    process_story_view dbW 4 20 =
      (dbW, { success := true, viewer_earn := some 0, charged := some false }) :=
  ⟨by decide, by decide,
    (C10_null_price_is_free dbW 2 4 20
      { id := 2, user_id := 10, star_price := none, status := "approved" }
      { id := 4, user_id := 10, star_price := none, status := "active", view_count := 0 }
      (by decide) (by decide) (by decide) (by decide)).1,
    (C10_null_price_is_free dbW 2 4 20
      { id := 2, user_id := 10, star_price := none, status := "approved" }
      { id := 4, user_id := 10, star_price := none, status := "active", view_count := 0 }
      (by decide) (by decide) (by decide) (by decide)).2⟩

end SaveMore
